import Mathlib

/-!
Verification development for the Readera annotation extractor
(`extract_annotations.py`).  The Python program is shallowly embedded:
JSON values become the inductive `Json`, Python runtime errors become
`PyError`, dictionary access and the `in` / `[]` operators become
explicit functions, and every function of the script becomes a Lean
definition with the same name wherever possible.  The ReportLab
document library is treated as an external collaborator: building a
document is an oracle `build : String → Option String` mapping an
output file name to `none` (success) or `some cause` (the exception
caught by the script).
-/

namespace Readera

/-- JSON values as produced by `json.load`.  Python `None` (both a JSON
`null` and the result of `dict.get` on a missing key) is `Json.null`;
numbers are modelled as integers, which covers every number appearing
in the claims. -/
inductive Json where
  | null
  | bool (b : Bool)
  | num (n : Int)
  | str (s : String)
  | arr (xs : List Json)
  | obj (kvs : List (String × Json))

/-- Structural equality test on `Json`, playing the role of Python `==`
on values decoded from JSON. -/
def Json.beq : Json → Json → Bool
  | .null, .null => true
  | .bool a, .bool b => a == b
  | .num a, .num b => a == b
  | .str a, .str b => a == b
  | .arr [], .arr [] => true
  | .arr (x :: xs), .arr (y :: ys) => Json.beq x y && Json.beq (.arr xs) (.arr ys)
  | .obj [], .obj [] => true
  | .obj ((k, v) :: xs), .obj ((k2, v2) :: ys) =>
      k == k2 && Json.beq v v2 && Json.beq (.obj xs) (.obj ys)
  | _, _ => false

/-- Python truthiness (`bool(x)`) of a JSON-decoded value: `None`,
`False`, `0`, `""`, `[]` and `{}` are falsy, everything else truthy. -/
def Json.truthy : Json → Bool
  | .null => false
  | .bool b => b
  | .num n => n != 0
  | .str s => s != ""
  | .arr xs => !xs.isEmpty
  | .obj kvs => !kvs.isEmpty

/-- Whether a value is a Python dict. -/
def Json.isObj : Json → Bool
  | .obj _ => true
  | _ => false

/-- First-match lookup in a dict's key/value list. -/
def lookupKey (kvs : List (String × Json)) (k : String) : Option Json :=
  match kvs with
  | [] => none
  | (k2, v) :: rest => if k2 = k then some v else lookupKey rest k

/-- Python `dict.get(k, d)`: the stored value when the key is present
(even when that value is `None`), otherwise the default `d`. -/
def dictGetD (kvs : List (String × Json)) (k : String) (d : Json) : Json :=
  (lookupKey kvs k).getD d

/-- The Python exceptions the script can hit outside of PDF building. -/
inductive PyError where
  | typeError
  | attributeError
  | keyError

/-- Python `x.get(k, d)`: raises `AttributeError` when `x` is not a
dict (as `None.get` does in the script's fallback chains). -/
def pyGetD (j : Json) (k : String) (d : Json) : Except PyError Json :=
  match j with
  | .obj kvs => .ok (dictGetD kvs k d)
  | _ => .error .attributeError

/-- Substring test used by Python `in` on strings. -/
def strContainsSub (s pat : String) : Bool :=
  (s.splitOn pat).length > 1

/-- Python `k in x` for a string key `k`: key membership on dicts,
element equality on lists, substring test on strings, and a
`TypeError` on non-container values (`None`, booleans, numbers). -/
def pyContainsKey (j : Json) (k : String) : Except PyError Bool :=
  match j with
  | .obj kvs => .ok (kvs.any (fun p => p.1 == k))
  | .arr xs => .ok (xs.any (fun x => match x with | .str s => s == k | _ => false))
  | .str s => .ok (strContainsSub s k)
  | _ => .error .typeError

/-- Python `x[k]` for a string key `k`: dict lookup (`KeyError` when
missing), `TypeError` on everything else, lists and strings included
(string indices must be integers). -/
def pySubscript (j : Json) (k : String) : Except PyError Json :=
  match j with
  | .obj kvs =>
      match lookupKey kvs k with
      | some v => .ok v
      | none => .error .keyError
  | _ => .error .typeError

/-- One extracted annotation record, the dict
`{book_name, page_number, quote, annotation}` built at source lines
58-63.  The `annotation` entry is the field `annot` here. -/
structure Record where
  book_name : Json
  page_number : Json
  quote : Json
  annot : Json

/-- Book-name resolution, source lines 41-44:
`book_name = doc.get('data', {}).get('doc_title')` and, when that is
falsy, `doc.get('data', {}).get('doc_file_name_title', 'Unknown Title')`. -/
def resolveBookName (doc : Json) : Except PyError Json := do
  let d1 ← pyGetD doc "data" (.obj [])
  let t ← pyGetD d1 "doc_title" .null
  if t.truthy then
    pure t
  else do
    let d2 ← pyGetD doc "data" (.obj [])
    pyGetD d2 "doc_file_name_title" (.str "Unknown Title")

/-- Per-citation step, source lines 52-63: read `note_page`,
`note_body`, `note_extra` and keep the record only when both
`note_body` (the quote) and `note_extra` (the annotation) are truthy. -/
def extractCitation (bn : Json) (c : Json) : Except PyError (Option Record) := do
  let page ← pyGetD c "note_page" .null
  let quote ← pyGetD c "note_body" .null
  let extra ← pyGetD c "note_extra" .null
  if quote.truthy && extra.truthy then
    pure (some { book_name := bn, page_number := page, quote := quote, annot := extra })
  else
    pure none

/-- The inner `for citation in citations` loop, in order. -/
def extractCitations (bn : Json) : List Json → Except PyError (List Record)
  | [] => .ok []
  | c :: cs => do
      let r0 ← extractCitation bn c
      let rest ← extractCitations bn cs
      match r0 with
      | some r => .ok (r :: rest)
      | none => .ok rest

/-- Per-document step, source lines 40-63: resolve the book name, then
skip the document (`continue`) unless `citations` is a truthy list;
iterating an empty list contributes zero records exactly like the skip
does, so both paths are the `.ok []`-on-non-list match below. -/
def extractDoc (doc : Json) : Except PyError (List Record) := do
  let bn ← resolveBookName doc
  let cits ← pyGetD doc "citations" .null
  match cits with
  | .arr cs => extractCitations bn cs
  | _ => .ok []

/-- The outer `for doc in data['docs']` loop, in order. -/
def extractDocs : List Json → Except PyError (List Record)
  | [] => .ok []
  | d :: ds => do
      let r ← extractDoc d
      let rest ← extractDocs ds
      .ok (r ++ rest)

/-- What reading and JSON-decoding the input file produced: the two
exceptions caught on source lines 29-34, or a decoded value. -/
inductive ReadResult where
  | fileNotFound
  | badJson
  | parsed (j : Json)

/-- The whole of `extract_annotations_from_json` (source lines 12-65)
over an already-performed read: an `Except` run that returns the lines
printed by the function together with the extracted records, or the
Python exception that escaped it. -/
def extract_annotations_from_json (fp : String) (input : ReadResult) :
    Except PyError (List String × List Record) :=
  match input with
  | .fileNotFound => .ok (["Error: File not found at " ++ fp], [])
  | .badJson => .ok (["Error: Could not decode JSON from " ++ fp], [])
  | .parsed data => do
      let hasDocs ← pyContainsKey data "docs"
      if hasDocs then do
        let docsVal ← pySubscript data "docs"
        match docsVal with
        | .arr ds => do
            let rs ← extractDocs ds
            .ok ([], rs)
        | _ => .ok (["Error: JSON structure is not as expected. Missing 'docs' array."], [])
      else
        .ok (["Error: JSON structure is not as expected. Missing 'docs' array."], [])

/-- The characters removed by `re.sub(r'[\\/*?:"<>|]', "", filename)`. -/
def badChar (c : Char) : Bool :=
  c == '\\' || c == '/' || c == '*' || c == '?' || c == ':' ||
  c == '"' || c == '<' || c == '>' || c == '|'

/-- The `filename.replace(" ", "_")` step, one character at a time. -/
def spaceToUnderscore (c : Char) : Char :=
  if c == ' ' then '_' else c

/-- The function `sanitize_filename` (source lines 67-75): remove the
problematic characters, replace spaces with underscores, then truncate
to 200 characters (`filename[:200]` slices code points). -/
def sanitize_filename (s : String) : String :=
  let removed := String.mk (s.data.filter (fun c => !badChar c))
  let replaced := String.mk (removed.data.map spaceToUnderscore)
  String.mk (replaced.data.take 200)

/-- The file name built on source line 91:
`f"{safe_title}_Annotations.pdf"`. -/
def deriveFileName (title : String) : String :=
  sanitize_filename title ++ "_Annotations.pdf"

/-- Python `os.path.join` restricted to the shapes the script uses. -/
def osPathJoin (a b : String) : String :=
  if a = "" then b
  else if a.data.getLast? = some ('/' : Char) then a ++ b
  else a ++ "/" ++ b

/-- Python `repr` of a JSON-decoded value, as `str` uses it inside
containers.  String escaping inside `repr` is not modelled beyond the
surrounding quotes; no claim touches it. -/
def pyRepr : Json → String
  | .null => "None"
  | .bool b => if b then "True" else "False"
  | .num n => toString n
  | .str s => "\x27" ++ s ++ "\x27"
  | .arr xs => "[" ++ String.intercalate ", " (xs.attach.map (fun c => pyRepr c.1)) ++ "]"
  | .obj kvs =>
      "\x7b" ++
      String.intercalate ", "
        (kvs.attach.map (fun p => "\x27" ++ p.1.1 ++ "\x27: " ++ pyRepr p.1.2)) ++
      "\x7d"
termination_by j => sizeOf j
decreasing_by
  · have h := List.sizeOf_lt_of_mem c.2
    simp only [Json.arr.sizeOf_spec]
    omega
  · have h := List.sizeOf_lt_of_mem p.2
    have h2 : sizeOf p.1 = 1 + sizeOf p.1.1 + sizeOf p.1.2 := by
      cases p.1
      simp [Prod.mk.sizeOf_spec]
    simp only [Json.obj.sizeOf_spec]
    omega

/-- Python `str` of a JSON-decoded value: the string itself for
strings, `repr`-style rendering otherwise (so `str(None) = "None"`). -/
def pyStr : Json → String
  | .str s => s
  | j => pyRepr j

/-- One grouped annotation dict as built on source lines 172-176:
`{page_number, quote, annotation}`, the book name having moved into
the dict key. -/
structure PdfRecord where
  page_number : Json
  quote : Json
  annot : Json

/-- Projection applied to each record when grouping (lines 172-176). -/
def projectRecord (r : Record) : PdfRecord :=
  { page_number := r.page_number, quote := r.quote, annot := r.annot }

/-- Appending one record to a Python dict of lists (`books_data`,
lines 169-176): insertion order is preserved, a fresh key goes to the
end, an existing key has the record appended to its list. -/
def addToGroup (acc : List (Json × List PdfRecord)) (k : Json) (v : PdfRecord) :
    List (Json × List PdfRecord) :=
  match acc with
  | [] => [(k, [v])]
  | (k2, vs) :: rest =>
      if Json.beq k2 k then (k2, vs ++ [v]) :: rest
      else (k2, vs) :: addToGroup rest k v

/-- The grouping loop of `__main__` (source lines 166-176). -/
def groupByBook (rs : List Record) : List (Json × List PdfRecord) :=
  rs.foldl (fun acc r => addToGroup acc r.book_name (projectRecord r)) []

/-- Lookup in the grouped dict. -/
def lookupGroup (g : List (Json × List PdfRecord)) (k : Json) : Option (List PdfRecord) :=
  match g with
  | [] => none
  | (k2, vs) :: rest => if Json.beq k2 k then some vs else lookupGroup rest k

/-- The first-seen-order key sequence of a list of book names:
`firstSeenFrom seen l` drops the names already in `seen` and keeps the
first occurrence of every new name. -/
def firstSeenFrom (seen : List Json) : List Json → List Json
  | [] => []
  | x :: xs =>
      if seen.any (fun s => Json.beq s x) then firstSeenFrom seen xs
      else x :: firstSeenFrom (seen ++ [x]) xs

/-- The `Page No.` cell of one table row (source line 113):
`str(ann.get('page_number', 'N/A'))`.  The grouped dicts always carry
the `page_number` key (possibly `None`), which the embedding records
by the cell reading the always-present field; the `'N/A'` default of
the source is therefore inert and `None` renders as `"None"`. -/
def pdfPageCell (a : PdfRecord) : String :=
  pyStr ((some a.page_number).getD (Json.str "N/A"))

/-- The `Quote` cell of one table row (source line 114). -/
def pdfQuoteCell (a : PdfRecord) : String :=
  pyStr ((some a.quote).getD (Json.str ""))

/-- The `Annotation` cell of one table row (source line 115). -/
def pdfAnnotCell (a : PdfRecord) : String :=
  pyStr ((some a.annot).getD (Json.str ""))

/-- The table rows built on source lines 108-121: the header row
followed by one row of rendered cells per annotation, in order. -/
def tableRows (anns : List PdfRecord) : List (List String) :=
  ["Page No.", "Quote", "Annotation"] ::
    anns.map (fun a => [pdfPageCell a, pdfQuoteCell a, pdfAnnotCell a])

/-- The document body appended after the title: either the
`"No annotations found for this book."` paragraph (source line 124,
taken when only the header row exists) or the styled table. -/
inductive StoryBody where
  | notice (text : String)
  | table (rows : List (List String))

/-- A built ReportLab document: target file name, the centered title
paragraph (`titleAlign = 1` is the center alignment of line 101), and
the body. -/
structure PdfDoc where
  filename : String
  title : String
  titleAlign : Nat
  body : StoryBody

/-- What one `save_book_to_pdf` call did: returned early with the
`"No annotations to save"` print (lines 86-88), built and wrote the
document (line 146), or caught a build exception (lines 147-148). -/
inductive SaveOutcome where
  | skipped (msg : String)
  | built (d : PdfDoc) (msg : String)
  | buildFailed (d : PdfDoc) (msg : String)

/-- The line printed by a `save_book_to_pdf` call. -/
def SaveOutcome.message : SaveOutcome → String
  | .skipped m => m
  | .built _ m => m
  | .buildFailed _ m => m

/-- The document a `save_book_to_pdf` call actually emitted to disk:
only a successful `doc.build` writes the file. -/
def SaveOutcome.emitted : SaveOutcome → Option PdfDoc
  | .built d _ => some d
  | _ => none

/-- The function `save_book_to_pdf` (source lines 77-148) with the
default `base_path="."`, over the build oracle.  The
`len(data) == 1` test of line 123 is `anns.isEmpty` here, since the
table data holds the header row plus one row per annotation. -/
def save_book_to_pdf (build : String → Option String) (book_title : String)
    (anns : List PdfRecord) : SaveOutcome :=
  if anns.isEmpty then
    .skipped ("No annotations to save for " ++ book_title ++ ".")
  else
    let pdf_filename := osPathJoin "." (deriveFileName book_title)
    let body :=
      if anns.isEmpty then StoryBody.notice "No annotations found for this book."
      else StoryBody.table (tableRows anns)
    let d : PdfDoc := ⟨pdf_filename, book_title, 1, body⟩
    match build pdf_filename with
    | none => .built d ("Successfully generated PDF: " ++ pdf_filename)
    | some cause => .buildFailed d ("Error generating PDF for " ++ book_title ++ ": " ++ cause)

/-- The `for book_title, annotations_for_book in books_data.items()`
loop (lines 181-182).  `sanitize_filename` applies `re.sub` to the
key, so a non-string book name raises a `TypeError`; string keys are
processed one by one, each call returning normally because the build
step is wrapped in `try/except`. -/
def runPdfGroups (build : String → Option String) :
    List (Json × List PdfRecord) → Except PyError (List SaveOutcome)
  | [] => .ok []
  | (k, anns) :: rest =>
      match k with
      | .str t => do
          let os ← runPdfGroups build rest
          .ok (save_book_to_pdf build t anns :: os)
      | _ => .error .typeError

/-- The console block printed for one record (source lines 187-191). -/
def consoleRecordLines (r : Record) : List String :=
  ["  Book: " ++ pyStr r.book_name,
   "  Page: " ++ pyStr r.page_number,
   "  Quote: \"" ++ pyStr r.quote ++ "\"",
   "  Annotation: \"" ++ pyStr r.annot ++ "\"",
   "--------------------"]

/-- What a whole run printed and the exit status it reached. -/
structure MainResult where
  messages : List String
  exitCode : Nat

/-- The `__main__` block (source lines 151-191) after argument
parsing: extract, exit 0 with a message when nothing was extracted,
otherwise group-and-render (with `--pdf`) or print to the console.  An
uncaught Python exception is the `Except.error` case. -/
def mainRun (build : String → Option String) (fp : String) (input : ReadResult)
    (pdfFlag : Bool) : Except PyError MainResult := do
  let (msgs, rs) ← extract_annotations_from_json fp input
  if rs.isEmpty then
    .ok ⟨msgs ++ ["No annotations found or an error occurred while reading the JSON."], 0⟩
  else if pdfFlag then
    let groups := groupByBook rs
    if groups.isEmpty then
      .ok ⟨msgs ++ ["No books found to generate PDFs for."], 0⟩
    else do
      let outs ← runPdfGroups build groups
      .ok ⟨msgs ++ outs.map SaveOutcome.message, 0⟩
  else
    .ok ⟨msgs ++ ("\nExtracted Annotations (Console Output):" ::
      (rs.map consoleRecordLines).flatten), 0⟩

/-- Specification-side accessor for comparing against the code: the
value a citation object stores under `k`, `null` when absent or when
the citation is not an object. -/
def citGet (c : Json) (k : String) : Json :=
  match c with
  | .obj kvs => dictGetD kvs k .null
  | _ => .null

/-- Specification-side filter: a citation contributes a record exactly
when both `note_body` and `note_extra` are truthy. -/
def keepCitation (c : Json) : Bool :=
  (citGet c "note_body").truthy && (citGet c "note_extra").truthy

/-- Specification-side record constructor for a kept citation. -/
def recordOfCitation (bn : Json) (c : Json) : Record :=
  { book_name := bn
    page_number := citGet c "note_page"
    quote := citGet c "note_body"
    annot := citGet c "note_extra" }

/-! Basic lemmas shared by several claim proofs. -/

theorem Json.beq_iff : ∀ (a b : Json), Json.beq a b = true ↔ a = b := by
  apply Json.beq.induct (motive := fun a b => (Json.beq a b = true ↔ a = b))
  case case9 =>
    intro a b h1 h2 h3 h4 h5 h6 h7 h8
    have hne : a ≠ b := by
      intro he
      subst he
      cases a with
      | null => exact h1 rfl rfl
      | bool x => exact h2 x x rfl rfl
      | num n => exact h3 n n rfl rfl
      | str s => exact h4 s s rfl rfl
      | arr xs =>
        cases xs with
        | nil => exact h5 rfl rfl
        | cons x t => exact h6 x t x t rfl rfl
      | obj kvs =>
        cases kvs with
        | nil => exact h7 rfl rfl
        | cons p t => exact h8 p.1 p.2 t p.1 p.2 t rfl rfl
    simp_all [Json.beq]
  all_goals intros
  all_goals simp_all [Json.beq]

theorem Json.beq_self (a : Json) : Json.beq a a = true :=
  (Json.beq_iff a a).mpr rfl

theorem Json.beq_eq_false_iff (a b : Json) : Json.beq a b = false ↔ a ≠ b := by
  constructor
  · intro h he
    rw [(Json.beq_iff a b).mpr he] at h
    simp at h
  · intro h
    rcases hb : Json.beq a b with _ | _
    · rfl
    · exact absurd ((Json.beq_iff a b).mp hb) h

theorem lookupKey_isSome_iff_any (kvs : List (String × Json)) (k : String) :
    (lookupKey kvs k).isSome = kvs.any (fun p => p.1 == k) := by
  induction kvs with
  | nil => rfl
  | cons p rest ih =>
    rcases p with ⟨k2, v⟩
    by_cases h : k2 = k <;> simp [lookupKey, h, ih]

/-- C1 as stated is refuted here: a document whose `data` carries both
`doc_title` and `doc_file_name_title` as empty strings resolves to the
empty string, because `dict.get(key, default)` only falls back to
`"Unknown Title"` when the key is absent, not when its value is empty.
The claim requires `"Unknown Title"` at this input. -/
theorem c1_counterexample_empty_titles :
    resolveBookName
        (Json.obj [("data", Json.obj
          [("doc_title", Json.str ""), ("doc_file_name_title", Json.str "")])])
      = .ok (Json.str "") ∧ Json.str "" ≠ Json.str "Unknown Title" := by
  refine ⟨rfl, ?_⟩
  simp

/-- C1 amended: the resolved `book_name` is `doc_title` when that is
truthy; otherwise it is the stored value of `doc_file_name_title`
whenever that key is present (even when the value is empty or
otherwise falsy), and the literal `"Unknown Title"` only when the key
is absent. -/
theorem c1_book_name_resolution (doc : Json) (dkvs : List (String × Json))
    (hdata : pyGetD doc "data" (Json.obj []) = .ok (Json.obj dkvs)) :
    resolveBookName doc = .ok
      (if (dictGetD dkvs "doc_title" .null).truthy then dictGetD dkvs "doc_title" .null
       else
         match lookupKey dkvs "doc_file_name_title" with
         | some v => v
         | none => Json.str "Unknown Title") := by
  simp only [resolveBookName, hdata, bind, Except.bind]
  by_cases ht : (dictGetD dkvs "doc_title" Json.null).truthy
  · simp [pyGetD, ht, pure, Except.pure]
  · simp only [pyGetD, ht, Bool.false_eq_true, if_false, hdata]
    simp only [dictGetD]
    rcases h : lookupKey dkvs "doc_file_name_title" with _ | v <;> simp [h]

/-- Witness for the amended C1 at concrete inputs: a truthy
`doc_title` wins, and an absent `doc_file_name_title` falls back to
`"Unknown Title"`. -/
theorem c1_book_name_resolution_witness :
    resolveBookName (Json.obj [("data", Json.obj [("doc_title", Json.str "A")])])
        = .ok (Json.str "A") ∧
    resolveBookName (Json.obj [("data", Json.obj [])]) = .ok (Json.str "Unknown Title") := by
  constructor
  · exact c1_book_name_resolution
      (Json.obj [("data", Json.obj [("doc_title", Json.str "A")])])
      [("doc_title", Json.str "A")] rfl
  · exact c1_book_name_resolution (Json.obj [("data", Json.obj [])]) [] rfl

/-- C2 as stated is refuted here: in PDF mode a book with an empty
annotation list produces no document at all — `save_book_to_pdf`
returns at the `if not book_annotations` guard before any title or
notice paragraph is assembled, so nothing is emitted. -/
theorem c2_counterexample_empty_group :
    SaveOutcome.emitted (save_book_to_pdf (fun _ => none) "Some Book" []) = none := rfl

/-- C2 amended: calling `save_book_to_pdf` with an empty annotation
list does not crash, but instead of emitting a title-plus-notice
document it prints `"No annotations to save for <title>."` and emits
nothing; every document that is emitted carries a table body, so the
`"No annotations found for this book."` notice branch is unreachable. -/
theorem c2_empty_group_skipped (build : String → Option String) (t : String) :
    save_book_to_pdf build t [] = .skipped ("No annotations to save for " ++ t ++ ".") ∧
    SaveOutcome.emitted (save_book_to_pdf build t []) = none ∧
    ∀ (anns : List PdfRecord) (d : PdfDoc),
      SaveOutcome.emitted (save_book_to_pdf build t anns) = some d →
      d.body = StoryBody.table (tableRows anns) := by
  refine ⟨rfl, rfl, ?_⟩
  intro anns d hd
  rcases anns with _ | ⟨a, anns⟩
  · simp [save_book_to_pdf, SaveOutcome.emitted] at hd
  · simp only [save_book_to_pdf, List.isEmpty_cons, if_false, Bool.false_eq_true] at hd
    rcases hb : build (osPathJoin "." (deriveFileName t)) with _ | cause
    · simp only [hb, SaveOutcome.emitted, Option.some.injEq] at hd
      rw [← hd]
    · simp [hb, SaveOutcome.emitted] at hd

/-- Witness for the amended C2 at a concrete input. -/
theorem c2_empty_group_skipped_witness :
    save_book_to_pdf (fun _ => none) "T" []
        = .skipped "No annotations to save for T." ∧
    SaveOutcome.emitted (save_book_to_pdf (fun _ => none) "T" []) = none := by
  have h := c2_empty_group_skipped (fun _ => none) "T"
  exact ⟨h.1, h.2.1⟩

/-- C3 as stated is refuted here: for a syntactically valid JSON file
whose top level is the number `42` — an "unexpected top-level shape"
lacking a `docs` list — the membership test `'docs' not in data`
raises an uncaught `TypeError`, so extraction raises instead of
returning the empty sequence and the process crashes instead of
exiting with status 0. -/
theorem c3_counterexample_nonobject_top :
    extract_annotations_from_json "highlights.json" (.parsed (Json.num 42))
        = .error .typeError ∧
    mainRun (fun _ => none) "highlights.json" (.parsed (Json.num 42)) false
        = .error .typeError :=
  ⟨rfl, rfl⟩

/-- C3 amended: when the file is missing, when its content is not
valid JSON, or when the parsed top level is an object that lacks a
`docs` key or stores a non-list under it, extraction returns the
empty sequence without raising together with one printed error
message, and the whole run prints a message and exits with status 0.
(A non-container top level instead raises `TypeError`, see the
counterexample.) -/
theorem c3_graceful_input_errors (fp : String) (input : ReadResult)
    (build : String → Option String) (pdfFlag : Bool)
    (h : input = .fileNotFound ∨ input = .badJson ∨
      ∃ kvs, input = .parsed (Json.obj kvs) ∧
        ∀ v, lookupKey kvs "docs" = some v → ∀ xs, v ≠ Json.arr xs) :
    ∃ m, extract_annotations_from_json fp input = .ok ([m], []) ∧
      mainRun build fp input pdfFlag =
        .ok ⟨[m, "No annotations found or an error occurred while reading the JSON."], 0⟩ := by
  have main_of_ext : ∀ m, extract_annotations_from_json fp input = .ok ([m], []) →
      mainRun build fp input pdfFlag =
        .ok ⟨[m, "No annotations found or an error occurred while reading the JSON."], 0⟩ := by
    intro m hm
    simp [mainRun, hm, bind, Except.bind]
  rcases h with h | h | ⟨kvs, hin, hv⟩
  · subst h
    exact ⟨_, rfl, main_of_ext _ rfl⟩
  · subst h
    exact ⟨_, rfl, main_of_ext _ rfl⟩
  · subst hin
    have hext : extract_annotations_from_json fp (.parsed (Json.obj kvs)) =
        .ok (["Error: JSON structure is not as expected. Missing 'docs' array."], []) := by
      simp only [extract_annotations_from_json, pyContainsKey, bind, Except.bind]
      rcases hany : kvs.any (fun p => p.1 == "docs") with _ | _
      · simp
      · have hs : (lookupKey kvs "docs").isSome = true := by
          rw [lookupKey_isSome_iff_any, hany]
        rcases hl : lookupKey kvs "docs" with _ | v
        · rw [hl] at hs
          simp at hs
        · have hnarr := hv v hl
          rw [if_pos rfl]
          simp only [pySubscript, hl]

    exact ⟨_, hext, main_of_ext _ hext⟩

/-- Witness for the amended C3: an object top level whose `docs` key
stores a string. -/
theorem c3_graceful_input_errors_witness :
    ∃ m, extract_annotations_from_json "highlights.json"
          (.parsed (Json.obj [("docs", Json.str "nope")])) = .ok ([m], []) ∧
      mainRun (fun _ => none) "highlights.json"
          (.parsed (Json.obj [("docs", Json.str "nope")])) false =
        .ok ⟨[m, "No annotations found or an error occurred while reading the JSON."], 0⟩ := by
  apply c3_graceful_input_errors
  refine Or.inr (Or.inr ⟨[("docs", Json.str "nope")], rfl, ?_⟩)
  intro v hval xs
  simp only [lookupKey, if_true, Option.some.injEq] at hval
  rw [← hval]
  simp

theorem extractCitation_obj (bn : Json) (c : Json) (hc : c.isObj = true) :
    extractCitation bn c =
      .ok (if keepCitation c then some (recordOfCitation bn c) else none) := by
  rcases c with _ | b | n | s | xs | kvs
  · simp [Json.isObj] at hc
  · simp [Json.isObj] at hc
  · simp [Json.isObj] at hc
  · simp [Json.isObj] at hc
  · simp [Json.isObj] at hc
  · simp only [extractCitation, pyGetD, bind, Except.bind, keepCitation, citGet,
      recordOfCitation, pure, Except.pure]
    by_cases hk : ((dictGetD kvs "note_body" Json.null).truthy &&
        (dictGetD kvs "note_extra" Json.null).truthy) = true
    · simp [hk]
    · simp [hk]

theorem extractCitations_objs (bn : Json) (cs : List Json)
    (h : ∀ c ∈ cs, c.isObj = true) :
    extractCitations bn cs = .ok ((cs.filter keepCitation).map (recordOfCitation bn)) := by
  induction cs with
  | nil => rfl
  | cons c cs ih =>
    have hc := h c (List.mem_cons_self c cs)
    have hrest := ih (fun x hx => h x (List.mem_cons_of_mem c hx))
    simp only [extractCitations, extractCitation_obj bn c hc, hrest, bind, Except.bind,
      List.filter_cons]
    by_cases hk : keepCitation c = true
    · simp [hk]
    · simp [hk]

/-- C4 confirmed: for a document whose `citations` value is a list of
citation objects, extraction keeps exactly the citations whose
`note_body` and `note_extra` are both truthy, in the original order
(the kept sublist is `cs.filter keepCitation`, mapped in place), the
number of records equals the count of such citations, and every
produced record has truthy (non-empty) quote and annotation. -/
theorem c4_citation_filtering (doc : Json) (bn : Json) (cs : List Json)
    (hb : resolveBookName doc = .ok bn)
    (hc : pyGetD doc "citations" .null = .ok (.arr cs))
    (hobj : ∀ c ∈ cs, c.isObj = true) :
    extractDoc doc = .ok ((cs.filter keepCitation).map (recordOfCitation bn)) ∧
    ((cs.filter keepCitation).map (recordOfCitation bn)).length = cs.countP keepCitation ∧
    ∀ r ∈ (cs.filter keepCitation).map (recordOfCitation bn),
      r.quote.truthy = true ∧ r.annot.truthy = true := by
  refine ⟨?_, ?_, ?_⟩
  · simp only [extractDoc, hb, hc, bind, Except.bind]
    exact extractCitations_objs bn cs hobj
  · simp [List.countP_eq_length_filter]
  · intro r hr
    simp only [List.mem_map, List.mem_filter] at hr
    obtain ⟨c, ⟨hcmem, hkeep⟩, hrc⟩ := hr
    rw [← hrc]
    simp only [keepCitation, Bool.and_eq_true] at hkeep
    exact ⟨hkeep.1, hkeep.2⟩

/-- Witness for C4: a document with three citations of which the
second lacks `note_extra`; exactly the first and third become records,
in order. -/
theorem c4_citation_filtering_witness :
    extractDoc (Json.obj [("data", Json.obj [("doc_title", Json.str "T")]),
        ("citations", Json.arr
          [Json.obj [("note_page", Json.num 1), ("note_body", Json.str "q1"),
                     ("note_extra", Json.str "a1")],
           Json.obj [("note_body", Json.str "q2")],
           Json.obj [("note_page", Json.num 3), ("note_body", Json.str "q3"),
                     ("note_extra", Json.str "a3")]])])
      = .ok [{ book_name := Json.str "T", page_number := Json.num 1,
               quote := Json.str "q1", annot := Json.str "a1" },
             { book_name := Json.str "T", page_number := Json.num 3,
               quote := Json.str "q3", annot := Json.str "a3" }] :=
  (c4_citation_filtering
    (Json.obj [("data", Json.obj [("doc_title", Json.str "T")]),
      ("citations", Json.arr
        [Json.obj [("note_page", Json.num 1), ("note_body", Json.str "q1"),
                   ("note_extra", Json.str "a1")],
         Json.obj [("note_body", Json.str "q2")],
         Json.obj [("note_page", Json.num 3), ("note_body", Json.str "q3"),
                   ("note_extra", Json.str "a3")]])])
    (Json.str "T")
    [Json.obj [("note_page", Json.num 1), ("note_body", Json.str "q1"),
               ("note_extra", Json.str "a1")],
     Json.obj [("note_body", Json.str "q2")],
     Json.obj [("note_page", Json.num 3), ("note_body", Json.str "q3"),
               ("note_extra", Json.str "a3")]]
    rfl rfl (by decide)).1

theorem addToGroup_fst (acc : List (Json × List PdfRecord)) (k : Json) (v : PdfRecord) :
    (addToGroup acc k v).map Prod.fst =
      if acc.any (fun p => Json.beq p.1 k) then acc.map Prod.fst
      else acc.map Prod.fst ++ [k] := by
  induction acc with
  | nil => simp [addToGroup]
  | cons p rest ih =>
    rcases p with ⟨k2, vs⟩
    rcases hb : Json.beq k2 k with _ | _
    · by_cases ha : rest.any (fun p => Json.beq p.1 k) = true
      · simp [addToGroup, hb, ha, ih]
      · simp [addToGroup, hb, ha, ih]
    · simp [addToGroup, hb]

theorem lookupGroup_addToGroup_self (acc : List (Json × List PdfRecord))
    (k : Json) (v : PdfRecord) :
    lookupGroup (addToGroup acc k v) k = some ((lookupGroup acc k).getD [] ++ [v]) := by
  induction acc with
  | nil => simp [addToGroup, lookupGroup, Json.beq_self]
  | cons p rest ih =>
    rcases p with ⟨k2, vs⟩
    rcases hb : Json.beq k2 k with _ | _
    · simp [addToGroup, lookupGroup, hb, ih]
    · simp [addToGroup, lookupGroup, hb]

theorem lookupGroup_addToGroup_ne (acc : List (Json × List PdfRecord))
    (k : Json) (v : PdfRecord) (q : Json) (h : k ≠ q) :
    lookupGroup (addToGroup acc k v) q = lookupGroup acc q := by
  have hb0 : Json.beq k q = false := (Json.beq_eq_false_iff k q).mpr h
  induction acc with
  | nil => simp [addToGroup, lookupGroup, hb0]
  | cons p rest ih =>
    rcases p with ⟨k2, vs⟩
    rcases hb : Json.beq k2 k with _ | _
    · simp [addToGroup, lookupGroup, hb, ih]
    · have hk2 : k2 = k := (Json.beq_iff k2 k).mp hb
      subst hk2
      simp [addToGroup, lookupGroup, hb, hb0]

theorem groupFold_fst (rs : List Record) :
    ∀ acc : List (Json × List PdfRecord),
    (rs.foldl (fun acc r => addToGroup acc r.book_name (projectRecord r)) acc).map Prod.fst =
      acc.map Prod.fst ++ firstSeenFrom (acc.map Prod.fst) (rs.map Record.book_name) := by
  induction rs with
  | nil =>
    intro acc
    simp [firstSeenFrom]
  | cons r rs ih =>
    intro acc
    have hany : (acc.any (fun p => Json.beq p.1 r.book_name)) =
        ((acc.map Prod.fst).any (fun s => Json.beq s r.book_name)) := by
      induction acc with
      | nil => rfl
      | cons p rest iha => simp [iha]
    simp only [List.foldl_cons, List.map_cons, firstSeenFrom]
    rw [ih, addToGroup_fst, hany]
    rcases ha : (acc.map Prod.fst).any (fun s => Json.beq s r.book_name) with _ | _
    · simp [List.append_assoc]
    · simp

theorem groupFold_lookup (rs : List Record) :
    ∀ (acc : List (Json × List PdfRecord)) (q : Json),
    lookupGroup (rs.foldl (fun acc r => addToGroup acc r.book_name (projectRecord r)) acc) q =
      (match lookupGroup acc q with
       | some vs => some (vs ++ (rs.filter (fun r => Json.beq r.book_name q)).map projectRecord)
       | none =>
           if rs.any (fun r => Json.beq r.book_name q) then
             some ((rs.filter (fun r => Json.beq r.book_name q)).map projectRecord)
           else none) := by
  induction rs with
  | nil =>
    intro acc q
    rcases h : lookupGroup acc q with _ | vs <;> simp [h]
  | cons r rs ih =>
    intro acc q
    simp only [List.foldl_cons]
    rw [ih]
    rcases hb : Json.beq r.book_name q with _ | _
    · have hne : r.book_name ≠ q := (Json.beq_eq_false_iff _ _).mp hb
      rw [lookupGroup_addToGroup_ne acc r.book_name (projectRecord r) q hne]
      rcases h : lookupGroup acc q with _ | vs <;> simp [h, List.filter_cons, hb]
    · have heq : r.book_name = q := (Json.beq_iff _ _).mp hb
      subst heq
      rw [lookupGroup_addToGroup_self]
      rcases h : lookupGroup acc r.book_name with _ | vs <;>
        simp [h, List.filter_cons, hb]

/-- C5 confirmed: grouping the extracted records by `book_name` yields
keys in first-seen order of the book names (`firstSeenFrom []`), and
the value stored under each key `q` is exactly the subsequence of
records whose `book_name` equals `q` (as a Python dict key,
`Json.beq`, which by `Json.beq_iff` is equality), in original order,
projected to the `{page_number, quote, annotation}` dicts the loop
builds; a name that never occurs has no entry. -/
theorem c5_grouping (rs : List Record) :
    (groupByBook rs).map Prod.fst = firstSeenFrom [] (rs.map Record.book_name) ∧
    ∀ q, lookupGroup (groupByBook rs) q =
      (if rs.any (fun r => Json.beq r.book_name q) then
        some ((rs.filter (fun r => Json.beq r.book_name q)).map projectRecord)
      else none) := by
  constructor
  · have h := groupFold_fst rs []
    simpa [groupByBook] using h
  · intro q
    have h := groupFold_lookup rs [] q
    simpa [groupByBook, lookupGroup] using h

/-- Witness for C5: three records over two books, interleaved; the
keys come out in first-seen order and the first book's entry holds its
two records in source order. -/
theorem c5_grouping_witness :
    lookupGroup (groupByBook
        [{ book_name := Json.str "B1", page_number := Json.null,
           quote := Json.str "q1", annot := Json.str "a1" },
         { book_name := Json.str "B2", page_number := Json.null,
           quote := Json.str "q2", annot := Json.str "a2" },
         { book_name := Json.str "B1", page_number := Json.null,
           quote := Json.str "q3", annot := Json.str "a3" }]) (Json.str "B1") =
      some [{ page_number := Json.null, quote := Json.str "q1", annot := Json.str "a1" },
            { page_number := Json.null, quote := Json.str "q3", annot := Json.str "a3" }] := by
  have h := (c5_grouping
    [{ book_name := Json.str "B1", page_number := Json.null,
       quote := Json.str "q1", annot := Json.str "a1" },
     { book_name := Json.str "B2", page_number := Json.null,
       quote := Json.str "q2", annot := Json.str "a2" },
     { book_name := Json.str "B1", page_number := Json.null,
       quote := Json.str "q3", annot := Json.str "a3" }]).2 (Json.str "B1")
  simpa [Json.beq, projectRecord] using h

/-- C6 confirmed: the derived file name is obtained by removing the
characters `\ / * ? : " < > |`, replacing every space by an
underscore, truncating the result to at most 200 characters, and
appending `_Annotations.pdf`; in particular the title
`"My/Book Title"` yields `"MyBook_Title_Annotations.pdf"`. -/
theorem c6_filename_derivation :
    (∀ t : String, deriveFileName t =
      String.mk (((t.data.filter (fun c => !badChar c)).map spaceToUnderscore).take 200) ++
        "_Annotations.pdf") ∧
    deriveFileName "My/Book Title" = "MyBook_Title_Annotations.pdf" := by
  refine ⟨fun t => rfl, by decide⟩

/-- Witness for C6 at a further concrete input: every listed character
is removed and spaces become underscores. -/
theorem c6_filename_derivation_witness :
    deriveFileName "a\\b/c*d?e:f\"g<h>i|j k" =
      String.mk ((("a\\b/c*d?e:f\"g<h>i|j k".data.filter
        (fun c => !badChar c)).map spaceToUnderscore).take 200) ++ "_Annotations.pdf" :=
  c6_filename_derivation.1 "a\\b/c*d?e:f\"g<h>i|j k"

/-- C7 confirmed: a citation lacking `note_page` produces a record
whose `page_number` is the absent value (`Json.null`, Python `None`),
and both the console page line and the PDF `Page No.` cell render it
as the fixed non-empty placeholder string `"None"` (Python
`str(None)`) rather than crashing or printing nothing; a present page
number is rendered as given — a string verbatim, a number via `str` —
with no numeric coercion. -/
theorem c7_page_rendering :
    (∀ (bn : Json) (kvs : List (String × Json)) (q a : Json),
      lookupKey kvs "note_page" = none →
      lookupKey kvs "note_body" = some q → q.truthy = true →
      lookupKey kvs "note_extra" = some a → a.truthy = true →
      ∃ r, extractCitation bn (.obj kvs) = .ok (some r) ∧
        r.page_number = Json.null ∧
        "  Page: None" ∈ consoleRecordLines r ∧
        pdfPageCell (projectRecord r) = "None" ∧
        "None" ≠ "") ∧
    (∀ (a : PdfRecord) (s : String), a.page_number = Json.str s → pdfPageCell a = s) ∧
    (∀ (a : PdfRecord) (n : Int), a.page_number = Json.num n → pdfPageCell a = toString n) ∧
    (∀ (r : Record) (s : String), r.page_number = Json.str s →
      "  Page: " ++ s ∈ consoleRecordLines r) := by
  refine ⟨?_, ?_, ?_, ?_⟩
  · intro bn kvs q a hp hq hqt ha hat
    refine ⟨⟨bn, Json.null, q, a⟩, ?_, rfl, ?_, ?_, by decide⟩
    · simp [extractCitation, pyGetD, dictGetD, hp, hq, ha, hqt, hat, bind, Except.bind,
        pure, Except.pure]
    · simp [consoleRecordLines, pyStr, pyRepr]
    · simp [pdfPageCell, projectRecord, pyStr, pyRepr]
  · intro a s h
    simp [pdfPageCell, h, pyStr]
  · intro a n h
    simp [pdfPageCell, h, pyStr, pyRepr]
  · intro r s h
    simp [consoleRecordLines, h, pyStr]

/-- Witness for C7: a citation with quote and annotation but no page. -/
theorem c7_page_rendering_witness :
    ∃ r, extractCitation (Json.str "T")
          (.obj [("note_body", Json.str "Q"), ("note_extra", Json.str "A")])
        = .ok (some r) ∧
      r.page_number = Json.null ∧
      "  Page: None" ∈ consoleRecordLines r ∧
      pdfPageCell (projectRecord r) = "None" ∧ "None" ≠ "" :=
  c7_page_rendering.1 (Json.str "T") [("note_body", Json.str "Q"), ("note_extra", Json.str "A")]
    (Json.str "Q") (Json.str "A") rfl rfl rfl rfl rfl

/-- C8 as stated is refuted here: the distinct titles `"A B"` and
`"A_B"` sanitize to the same string, so in a run containing both books
the derived file names coincide — the mapping is not injective on
distinct titles. -/
theorem c8_counterexample_collision :
    deriveFileName "A B" = deriveFileName "A_B" ∧ "A B" ≠ "A_B" :=
  ⟨rfl, by decide⟩

/-- C8 amended: two titles derive the same `_Annotations.pdf` file
name exactly when their sanitized forms coincide, so each distinct
book title gets its own file only up to sanitization; titles that
differ only by removed characters, space versus underscore, or beyond
the 200-character truncation collide on one file. -/
theorem c8_filename_injectivity (s t : String) :
    deriveFileName s = deriveFileName t ↔ sanitize_filename s = sanitize_filename t := by
  constructor
  · intro h
    have hd := congrArg String.data h
    rw [deriveFileName, deriveFileName, String.data_append, String.data_append] at hd
    exact String.ext (List.append_cancel_right hd)
  · intro h
    rw [deriveFileName, deriveFileName, h]

/-- Witness for the amended C8: two titles with distinct sanitized
forms receive distinct file names. -/
theorem c8_filename_injectivity_witness :
    ¬ deriveFileName "Dune" = deriveFileName "Emma" := by
  intro h
  have h2 := (c8_filename_injectivity "Dune" "Emma").mp h
  revert h2
  decide

/-- C9 confirmed: the PDF loop processes every grouped book in order
whatever the build oracle does — the run is the ordered list of
per-book `save_book_to_pdf` outcomes; a build failure for one book is
caught and reported in a message carrying that book's title and the
underlying cause; and a book's outcome depends only on the build
behaviour at its own file name, so one book's failure cannot change
what is rendered for any other (in particular any subsequent) book. -/
theorem c9_render_failure_isolation (build : String → Option String)
    (groups : List (String × List PdfRecord)) :
    runPdfGroups build (groups.map (fun g => (Json.str g.1, g.2)))
        = .ok (groups.map (fun g => save_book_to_pdf build g.1 g.2)) ∧
    (∀ t anns cause, (t, anns) ∈ groups → anns ≠ [] →
      build (osPathJoin "." (deriveFileName t)) = some cause →
      save_book_to_pdf build t anns =
        .buildFailed
          ⟨osPathJoin "." (deriveFileName t), t, 1, StoryBody.table (tableRows anns)⟩
          ("Error generating PDF for " ++ t ++ ": " ++ cause)) ∧
    (∀ t anns (build2 : String → Option String),
      build2 (osPathJoin "." (deriveFileName t)) = build (osPathJoin "." (deriveFileName t)) →
      save_book_to_pdf build2 t anns = save_book_to_pdf build t anns) := by
  refine ⟨?_, ?_, ?_⟩
  · induction groups with
    | nil => rfl
    | cons g gs ih =>
      rcases g with ⟨t, anns⟩
      simp only [List.map_cons, runPdfGroups, ih, bind, Except.bind]
  · intro t anns cause hmem hne hb
    rcases anns with _ | ⟨a, anns⟩
    · exact absurd rfl hne
    · simp [save_book_to_pdf, hb]
  · intro t anns build2 hb
    rcases anns with _ | ⟨a, anns⟩
    · rfl
    · simp only [save_book_to_pdf, List.isEmpty_cons, Bool.false_eq_true, if_false]
      rw [hb]

/-- Witness for C9: two books where building the first book's file
fails; the loop still yields both outcomes, and the first is the
caught, reported failure. -/
theorem c9_render_failure_isolation_witness :
    runPdfGroups
        (fun fn => if fn = "./A_Annotations.pdf" then some "disk full" else none)
        [(Json.str "A", [⟨Json.null, Json.str "q", Json.str "a"⟩]),
         (Json.str "B", [⟨Json.null, Json.str "q", Json.str "a"⟩])]
      = .ok
        [save_book_to_pdf
          (fun fn => if fn = "./A_Annotations.pdf" then some "disk full" else none)
          "A" [⟨Json.null, Json.str "q", Json.str "a"⟩],
         save_book_to_pdf
          (fun fn => if fn = "./A_Annotations.pdf" then some "disk full" else none)
          "B" [⟨Json.null, Json.str "q", Json.str "a"⟩]] ∧
    save_book_to_pdf
        (fun fn => if fn = "./A_Annotations.pdf" then some "disk full" else none)
        "A" [⟨Json.null, Json.str "q", Json.str "a"⟩]
      = .buildFailed
          ⟨osPathJoin "." (deriveFileName "A"), "A", 1,
            StoryBody.table (tableRows [⟨Json.null, Json.str "q", Json.str "a"⟩])⟩
          ("Error generating PDF for " ++ "A" ++ ": " ++ "disk full") := by
  constructor
  · exact (c9_render_failure_isolation
      (fun fn => if fn = "./A_Annotations.pdf" then some "disk full" else none)
      [("A", [⟨Json.null, Json.str "q", Json.str "a"⟩]),
       ("B", [⟨Json.null, Json.str "q", Json.str "a"⟩])]).1
  · exact (c9_render_failure_isolation
      (fun fn => if fn = "./A_Annotations.pdf" then some "disk full" else none)
      [("A", [⟨Json.null, Json.str "q", Json.str "a"⟩]),
       ("B", [⟨Json.null, Json.str "q", Json.str "a"⟩])]).2.1
      "A" [⟨Json.null, Json.str "q", Json.str "a"⟩] "disk full"
      (by simp) (by simp) (by decide)

/-- C10 confirmed: `sanitize_filename` is idempotent — its output
contains none of the removed characters, contains no space, and has
at most 200 characters, so a second application changes nothing. -/
theorem c10_sanitize_idempotent (s : String) :
    sanitize_filename (sanitize_filename s) = sanitize_filename s ∧
    (∀ c ∈ (sanitize_filename s).data, badChar c = false ∧ c ≠ ' ') ∧
    (sanitize_filename s).length ≤ 200 := by
  have hmem : ∀ c ∈ (sanitize_filename s).data, badChar c = false ∧ c ≠ ' ' := by
    intro c hc
    have hc2 : c ∈ (s.data.filter (fun c => !badChar c)).map spaceToUnderscore :=
      List.take_subset 200 _ hc
    rcases List.mem_map.mp hc2 with ⟨d, hd, hfd⟩
    have hdok : (!badChar d) = true := (List.mem_filter.mp hd).2
    rw [← hfd]
    by_cases hsp : d = ' '
    · subst hsp
      exact ⟨by decide, by decide⟩
    · have : spaceToUnderscore d = d := by
        simp [spaceToUnderscore, hsp]
      rw [this]
      exact ⟨by simpa using hdok, hsp⟩
  have hlen : (sanitize_filename s).length ≤ 200 := by
    show (((s.data.filter (fun c => !badChar c)).map spaceToUnderscore).take 200).length ≤ 200
    rw [List.length_take]
    exact Nat.min_le_left _ _
  refine ⟨?_, hmem, hlen⟩
  apply String.ext
  show ((((sanitize_filename s).data.filter (fun c => !badChar c)).map
      spaceToUnderscore).take 200) = (sanitize_filename s).data
  have h1 : (sanitize_filename s).data.filter (fun c => !badChar c) =
      (sanitize_filename s).data := by
    rw [List.filter_eq_self]
    intro a ha
    simp [(hmem a ha).1]
  rw [h1]
  have h2 : (sanitize_filename s).data.map spaceToUnderscore =
      (sanitize_filename s).data := by
    have := List.map_congr_left (l := (sanitize_filename s).data)
      (f := spaceToUnderscore) (g := id)
      (fun a ha => by simp [spaceToUnderscore, (hmem a ha).2])
    simpa using this
  rw [h2]
  exact List.take_of_length_le hlen

/-- Witness for C10 at a concrete title containing a removed
character, a space, and an underscore. -/
theorem c10_sanitize_idempotent_witness :
    sanitize_filename (sanitize_filename "a b/c_d") = sanitize_filename "a b/c_d" :=
  (c10_sanitize_idempotent "a b/c_d").1

end Readera
